import Mathlib

/-!
# Verification of the Oura health-analytics engine

Shallow embedding of the analysis core of the `oura-telegram-reports`
repository: sleep-debt and circadian-stability calculators
(`bot/habits/sleep_debt.py`, `bot/habits/circadian.py`), habit streak
tracking (`bot/habits/streaks.py`), threshold alerting with deduplication
(`bot/alerts/monitor.py`), the event/metric correlator
(`bot/analysis/correlator.py`) and the percentile engine
(`bot/analysis/percentiles.py`).

Python floats are modelled as rationals (all comparisons proved here are
exact at dyadic inputs), timestamps as integer seconds, and nullable
database columns as `Option` values.
-/

namespace OuraBot

/-! ## Sleep debt — `bot/habits/sleep_debt.py` -/

def TARGET_SLEEP_HOURS : ℚ := 7.5

/-- The four label tiers of `calculate_sleep_debt` (the Russian label
strings themselves carry no logic; the branch structure is kept). -/
inductive DebtLabel
  | noDebt
  | small
  | significant
  | critical
deriving DecidableEq

structure SleepDebtResult where
  debt_hours : ℚ
  avg_sleep : ℚ
  days_to_payoff : ℤ
  label : DebtLabel
deriving DecidableEq

/-- `calculate_sleep_debt(days)`.  `rows` is the list of non-null
`total_sleep_duration` values (seconds) returned by the query
(`... WHERE total_sleep_duration IS NOT NULL ORDER BY day DESC LIMIT days`).
Python `int(x)` truncates toward zero; `debt / extra_per_night` is
non-negative here, so truncation coincides with the floor. -/
def calculate_sleep_debt (rows : List ℚ) : Option SleepDebtResult :=
  if rows.length < 3 then none
  else
    let sleep_hours := rows.map (fun s => s / 3600)
    let avg_sleep := sleep_hours.sum / (sleep_hours.length : ℚ)
    let debt := (sleep_hours.map (fun h => max 0 (TARGET_SLEEP_HOURS - h))).sum
    let extra_per_night : ℚ := 0.5
    let days_to_payoff : ℤ := if debt > 0 then ⌊debt / extra_per_night⌋ + 1 else 0
    let label :=
      if debt ≤ 0 then DebtLabel.noDebt
      else if debt ≤ 3 then DebtLabel.small
      else if debt ≤ 7 then DebtLabel.significant
      else DebtLabel.critical
    some ⟨debt, avg_sleep, days_to_payoff, label⟩

/-! ## Circadian stability — `bot/habits/circadian.py` -/

/-- A wall-clock hour:minute, as extracted from a parsed timestamp
(`bt_local.hour`, `bt_local.minute`). -/
structure WallClock where
  hour : ℕ
  minute : ℕ
deriving DecidableEq

/-- Lines 40–43 of `circadian.py`: minutes past midnight, with bedtimes
before 6 AM shifted by +24 h. -/
def bedtime_to_minutes (t : WallClock) : ℕ :=
  let minutes := t.hour * 60 + t.minute
  if minutes < 360 then minutes + 1440 else minutes

def listMean (l : List ℚ) : ℚ := l.sum / (l.length : ℚ)

/-- `statistics.stdev` squared: the sample variance with Bessel's
correction (denominator `n − 1`). -/
def sampleVariance (l : List ℚ) : ℚ :=
  let mu := listMean l
  (l.map (fun x => (x - mu) ^ 2)).sum / ((l.length : ℚ) - 1)

/-- `get_circadian_stability(days)`, up to the standard deviation: the
returned `bedtime_stdev_min` is the square root of this value.  `rows`
is the list of non-null `bedtime_start` rows, each parsed to its local
wall-clock time (`none` = the `datetime.fromisoformat` call raised and
the row was skipped). -/
def get_circadian_variance (rows : List (Option WallClock)) : Option ℚ :=
  if rows.length < 5 then none
  else
    let bedtime_minutes := rows.filterMap (Option.map fun t => (bedtime_to_minutes t : ℚ))
    if bedtime_minutes.length < 5 then none
    else some (sampleVariance bedtime_minutes)

/-! ## Habit streaks — `bot/habits/streaks.py` -/

/-- One chronological scan step of `update_streaks` for one habit.
State is `(streak, best_streak)`.  A `none` day is a missing metric value
(`val is None`: reset, no best/last update); `some hit` is the evaluated
predicate on a present value. -/
def streakStep (s : ℕ × ℕ) (day : Option Bool) : ℕ × ℕ :=
  match day with
  | none => (0, s.2)
  | some true => (s.1 + 1, max s.2 (s.1 + 1))
  | some false => (0, s.2)

/-- `SELECT * FROM daily_metrics ORDER BY day DESC LIMIT 90` followed by
`reversed(rows)`: the chronologically last 90 days of the history, in
chronological order. -/
def window90 {α : Type} (hist : List α) : List α :=
  hist.drop (hist.length - 90)

/-- The `(current_streak, best_streak)` pair persisted by one run of
`update_streaks` for a habit whose per-day outcome is `hist`
(chronological).  The upsert overwrites both stored fields with exactly
these values. -/
def run_streaks (hist : List (Option Bool)) : ℕ × ℕ :=
  (window90 hist).foldl streakStep (0, 0)

/-- One run of `update_streaks` for a habit with a *fixed* predicate —
`sleep_7h` and `steps_8k` (`op = '>='` against the constant target from
`DEFAULT_HABITS`) and `bedtime_2300` (`bedtime_hit` against the constant
23:00 cutoff): the per-day metric column is `hist` (chronological raw
history, `none` = NULL) and `hit` is the day predicate.  The scan runs
over the `LIMIT 90` window. -/
def run_streaks_fixed {α : Type} (hist : List (Option α)) (hit : α → Bool) : ℕ × ℕ :=
  ((window90 hist).map (Option.map hit)).foldl streakStep (0, 0)

/-- One run of `update_streaks` for the `hrv_above_avg` habit
(lines 31–36 of `streaks.py`): its target is recomputed on every run as
the mean of the non-null `average_hrv` values inside the `LIMIT 90`
window (`none` result = no values, the habit is skipped via `continue`
and nothing is upserted). -/
def run_streaks_hrv (hist : List (Option ℚ)) : Option (ℕ × ℕ) :=
  let rows_asc := window90 hist
  let vals := rows_asc.filterMap id
  if vals = [] then none
  else
    let target := listMean vals
    some ((rows_asc.map (Option.map fun v => decide (v ≥ target))).foldl streakStep (0, 0))

/-- Lines 54–59 of `streaks.py`: the `bedtime_before` predicate.  `bt` is
the parsed wall-clock time of `bedtime_start or bedtime_end` (`none` =
missing or `datetime.fromisoformat` failed, giving `hit = False`). -/
def bedtime_hit (bt : Option WallClock) (target_hour target_min : ℕ) : Bool :=
  match bt with
  | none => false
  | some t =>
      decide (t.hour < target_hour) ||
        (decide (t.hour = target_hour) && decide (t.minute ≤ target_min))

/-! ## Alert engine — `bot/alerts/monitor.py` -/

def THRESHOLDS_readiness_score_drop : ℚ := 20
def THRESHOLDS_sleep_score_drop : ℚ := 20
def THRESHOLDS_hrv_drop_pct : ℚ := 30
def THRESHOLDS_rhr_rise_bpm : ℚ := 10
def THRESHOLDS_temperature_deviation : ℚ := 1.0
def THRESHOLDS_stress_high_multiplier : ℚ := 2.0
def THRESHOLDS_spo2_min : ℚ := 95

/-- `DEDUP_HOURS` from `bot/config.py` (default 12). -/
def DEDUP_HOURS : ℤ := 12

/-- One candidate alert.  The rendered Russian `message` string carries
no logic and is omitted. -/
structure Alert where
  metric : String
  severity : String
deriving DecidableEq

/-- The `baselines` dict read by `check_alerts` (`dict.get` = `none` when
the key is absent). -/
structure Baselines where
  readiness_score : Option ℚ := none
  sleep_score : Option ℚ := none
  hrv : Option ℚ := none
  resting_hr : Option ℚ := none
  stress_high : Option ℚ := none
  temperature_deviation : Option ℚ := none
  spo2 : Option ℚ := none

/-- The `current` dict read by `check_alerts`. -/
structure Current where
  readiness_score : Option ℚ := none
  temperature_deviation : Option ℚ := none
  sleep_score : Option ℚ := none
  hrv : Option ℚ := none
  resting_hr : Option ℚ := none
  stress_high : Option ℚ := none
  spo2 : Option ℚ := none

/-- Lines 132–139: `if baselines.get(..) and current.get(..)` — Python
truthiness, so a value of `0` fails the guard like an absent one. -/
def readinessAlerts (b c : Option ℚ) : List Alert :=
  match b, c with
  | some bv, some cv =>
      if bv ≠ 0 ∧ cv ≠ 0 then
        let dropAmt := bv - cv
        if dropAmt ≥ THRESHOLDS_readiness_score_drop then
          [⟨"readiness_score", if dropAmt ≥ 30 then "red" else "yellow"⟩]
        else []
      else []
  | _, _ => []

/-- Lines 141–148. -/
def sleepAlerts (b c : Option ℚ) : List Alert :=
  match b, c with
  | some bv, some cv =>
      if bv ≠ 0 ∧ cv ≠ 0 then
        let dropAmt := bv - cv
        if dropAmt ≥ THRESHOLDS_sleep_score_drop then
          [⟨"sleep_score", if dropAmt ≥ 30 then "red" else "yellow"⟩]
        else []
      else []
  | _, _ => []

/-- Lines 150–157. -/
def hrvAlerts (b c : Option ℚ) : List Alert :=
  match b, c with
  | some bv, some cv =>
      if bv ≠ 0 ∧ cv ≠ 0 then
        let drop_pct := (bv - cv) / bv * 100
        if drop_pct ≥ THRESHOLDS_hrv_drop_pct then
          [⟨"hrv", if drop_pct ≥ 40 then "red" else "yellow"⟩]
        else []
      else []
  | _, _ => []

/-- Lines 159–166. -/
def rhrAlerts (b c : Option ℚ) : List Alert :=
  match b, c with
  | some bv, some cv =>
      if bv ≠ 0 ∧ cv ≠ 0 then
        let rise := cv - bv
        if rise ≥ THRESHOLDS_rhr_rise_bpm then
          [⟨"resting_hr", if rise ≥ 15 then "red" else "yellow"⟩]
        else []
      else []
  | _, _ => []

/-- Lines 168–175: guarded by `is not None` only, not by truthiness. -/
def tempAlerts (c : Option ℚ) : List Alert :=
  match c with
  | some temp =>
      if |temp| > THRESHOLDS_temperature_deviation then
        [⟨"temperature", if |temp| > 1.5 then "red" else "yellow"⟩]
      else []
  | none => []

/-- Lines 177–185. -/
def stressAlerts (b c : Option ℚ) : List Alert :=
  match b, c with
  | some bv, some cv =>
      if bv ≠ 0 ∧ cv ≠ 0 then
        if bv > 0 ∧ cv ≥ bv * THRESHOLDS_stress_high_multiplier then
          [⟨"stress_high", if cv ≥ bv * 3 then "red" else "yellow"⟩]
        else []
      else []
  | _, _ => []

/-- Lines 187–194: guarded by `is not None` only. -/
def spo2Alerts (c : Option ℚ) : List Alert :=
  match c with
  | some v =>
      if v < THRESHOLDS_spo2_min then
        [⟨"spo2", if v < 92 then "red" else "yellow"⟩]
      else []
  | none => []

/-- `check_alerts(baselines, current)`: the candidate alerts appended in
source order. -/
def check_alerts (b : Baselines) (c : Current) : List Alert :=
  readinessAlerts b.readiness_score c.readiness_score ++
    sleepAlerts b.sleep_score c.sleep_score ++
    hrvAlerts b.hrv c.hrv ++
    rhrAlerts b.resting_hr c.resting_hr ++
    tempAlerts c.temperature_deviation ++
    stressAlerts b.stress_high c.stress_high ++
    spo2Alerts c.spo2

/-- `_filter_duplicates(alerts, history)` at check time `now` (seconds).
`history` is the `AlertDeduplicationLedger`: metric name ↦ timestamp of
the last sent alert (`none` = no entry / falsy entry).  An alert is kept
unless its entry is newer than `now − DEDUP_HOURS`. -/
def filter_duplicates (alerts : List Alert) (history : String → Option ℤ)
    (now : ℤ) : List Alert :=
  let cutoff := now - DEDUP_HOURS * 3600
  alerts.filter fun a =>
    match history a.metric with
    | some last_sent => decide (last_sent ≤ cutoff)
    | none => true

/-- Result of one `run_alert_check` invocation: the alert batch handed to
`send_telegram_message` (if any) and the dedup ledger as saved after the
run. -/
structure CheckOutcome where
  sent : Option (List Alert)
  ledger : String → Option ℤ

/-- Lines 252–275 of `run_alert_check` (the prefix — baseline staleness
recompute and the fetch of current values — is external I/O, summarised
by the `b`, `c`, `history`, `now` inputs; `send_success` is the result
reported by the `send_telegram_message` collaborator).  The ledger file
is rewritten only in the `success` branch, with every delivered metric
set to the same `now`. -/
def run_alert_check (b : Baselines) (c : Current) (history : String → Option ℤ)
    (now : ℤ) (send_success : Bool) : CheckOutcome :=
  let alerts := check_alerts b c
  if alerts.isEmpty then ⟨none, history⟩
  else
    let filtered := filter_duplicates alerts history now
    if filtered.isEmpty then ⟨none, history⟩
    else if send_success then
      ⟨some filtered,
        fun m => if m ∈ filtered.map Alert.metric then some now else history m⟩
    else ⟨some filtered, history⟩

/-! ## Correlation engine — `bot/analysis/correlator.py` -/

structure CorrelationRecord where
  avg_with_event : ℚ
  avg_without_event : ℚ
  delta : ℚ
  delta_pct : ℚ
  count_with : ℕ
  count_without : ℕ
  confidence : ℚ
  time_bucket : String
deriving DecidableEq

/-- The partition loop (lines 50–58 / 116–123): for each `(day, value)`
row of `metrics_by_day` restricted to one metric field, a `none` value is
skipped; otherwise the value goes to `with_event` when the day is in
`event_days`, else to `without_event`. -/
def partitionByEvent (rows : List (String × Option ℚ)) (event_days : List String) :
    List ℚ × List ℚ :=
  rows.foldr
    (fun r acc =>
      match r.2 with
      | none => acc
      | some v => if r.1 ∈ event_days then (v :: acc.1, acc.2) else (acc.1, v :: acc.2))
    ([], [])

/-- The `'all'`-bucket body of `compute_correlations` for one event type
and one metric field.  `rows` are the `daily_metrics` rows projected to
`(day, metric value)`; `event_days` is the `SELECT DISTINCT date(...)`
result for the event type (`dedup` models the `set(...)`).  `none` =
the `continue`/early-`return` paths (no record upserted). -/
def compute_correlation_all (rows : List (String × Option ℚ))
    (event_days : List String) : Option CorrelationRecord :=
  if rows.length < 14 then none
  else
    let eds := event_days.dedup
    if eds.length < 3 then none
    else
      let p := partitionByEvent rows eds
      if p.1.length < 3 ∨ p.2.length < 3 then none
      else
        let avg_with := listMean p.1
        let avg_without := listMean p.2
        let delta := avg_with - avg_without
        let delta_pct := if avg_without ≠ 0 then delta / avg_without * 100 else 0
        let confidence := (min p.1.length p.2.length : ℚ) / ((p.1.length + p.2.length : ℕ) : ℚ)
        some ⟨avg_with, avg_without, delta, delta_pct, p.1.length, p.2.length,
          confidence, "all"⟩

/-- The `_compute_time_bucket_correlations` body for one bucket and one
metric field.  `bucket_event_days` is the distinct-day query result
restricted to the bucket's hour range. -/
def compute_correlation_bucket (rows : List (String × Option ℚ))
    (bucket_event_days : List String) (bucket_name : String) :
    Option CorrelationRecord :=
  if rows.length < 14 then none
  else
    let eds := bucket_event_days.dedup
    if eds.length < 2 then none
    else
      let p := partitionByEvent rows eds
      if p.1.length < 2 ∨ p.2.length < 3 then none
      else
        let avg_with := listMean p.1
        let avg_without := listMean p.2
        let delta := avg_with - avg_without
        let delta_pct := if avg_without ≠ 0 then delta / avg_without * 100 else 0
        let confidence := (min p.1.length p.2.length : ℚ) / ((p.1.length + p.2.length : ℕ) : ℚ)
        some ⟨avg_with, avg_without, delta, delta_pct, p.1.length, p.2.length,
          confidence, bucket_name⟩

/-! ## Percentile engine — `bot/analysis/percentiles.py` -/

/-- The inner `percentile(p)` closure (lines 36–42), over the sorted
value list.  Python `int(k)` truncates toward zero; `k ≥ 0` for every
call site, so it is the floor.  `sorted_vals[-1]` is the last element. -/
def percentile (sorted_vals : List ℚ) (p : ℚ) : ℚ :=
  let n := sorted_vals.length
  let k := ((n : ℚ) - 1) * p / 100
  let f := (⌊k⌋).toNat
  let c := f + 1
  if n ≤ c then sorted_vals.getD (n - 1) 0
  else sorted_vals.getD f 0 + (k - (f : ℚ)) * (sorted_vals.getD c 0 - sorted_vals.getD f 0)

structure PercentileRecord where
  p10 : ℚ
  p25 : ℚ
  p50 : ℚ
  p75 : ℚ
  p90 : ℚ
  count : ℕ
deriving DecidableEq

/-- The per-metric body of `compute_percentiles`: `values` are the
non-null values of one tracked metric, in day order; `sorted(values)` is
modelled by insertion sort (same multiset, sorted ascending). -/
def compute_percentiles_metric (values : List ℚ) : Option PercentileRecord :=
  if values.length < 7 then none
  else
    let sorted_vals := List.insertionSort (· ≤ ·) values
    some ⟨percentile sorted_vals 10, percentile sorted_vals 25,
      percentile sorted_vals 50, percentile sorted_vals 75,
      percentile sorted_vals 90, sorted_vals.length⟩

/-! ## Theorems -/

/-- C1 (counterexample): on seven days of 6-hour sleep (21 600 s) against
the 7.5-hour target, `calculate_sleep_debt` yields `debt = 10.5` but
`days_to_payoff = 22`, whereas `⌈debt / 0.5⌉ = 21`: the code computes
`int(debt / 0.5) + 1`, not the ceiling. -/
theorem sleep_debt_example_payoff_is_22_not_ceil :
    calculate_sleep_debt (List.replicate 7 21600) =
      some ⟨10.5, 6, 22, .critical⟩ ∧
    (⌈(10.5 : ℚ) / 0.5⌉ : ℤ) = 21 ∧ (22 : ℤ) ≠ 21 := by
  refine ⟨?_, by norm_num, by norm_num⟩
  norm_num [calculate_sleep_debt, TARGET_SLEEP_HOURS, List.replicate, max_def]

/-- C1 (amended): for every history with at least 3 non-missing
total-sleep values, `calculate_sleep_debt` returns
`daysToPayoff = ⌊debt / 0.5⌋ + 1` when `debt > 0` — which lies between
`⌈debt / 0.5⌉` and `⌈debt / 0.5⌉ + 1` and overshoots the ceiling exactly
when `debt` is a multiple of 0.5 — and `daysToPayoff = 0` when
`debt = 0`. -/
theorem calculate_sleep_debt_days_to_payoff (rows : List ℚ) (r : SleepDebtResult)
    (h : calculate_sleep_debt rows = some r) :
    (0 < r.debt_hours →
      r.days_to_payoff = ⌊r.debt_hours / (0.5 : ℚ)⌋ + 1 ∧
      ⌈r.debt_hours / (0.5 : ℚ)⌉ ≤ r.days_to_payoff ∧
      r.days_to_payoff ≤ ⌈r.debt_hours / (0.5 : ℚ)⌉ + 1) ∧
    (r.debt_hours = 0 → r.days_to_payoff = 0) := by
  simp only [calculate_sleep_debt] at h
  split at h
  · exact absurd h (by simp)
  · simp only [Option.some.injEq] at h
    subst h
    constructor
    · intro hd
      simp only at hd ⊢
      rw [if_pos hd]
      refine ⟨rfl, ?_, ?_⟩
      · exact Int.ceil_le_floor_add_one _
      · exact add_le_add_right (Int.floor_le_ceil _) 1
    · intro hd
      simp only at hd ⊢
      rw [if_neg (by rw [hd]; exact lt_irrefl 0)]

/-- C1 (witness): the amended theorem applied to the seven-day 6-hour
example, where `debt = 10.5 > 0` and `days_to_payoff = 22`. -/
theorem calculate_sleep_debt_days_to_payoff_witness :
    (0 < (10.5 : ℚ) →
      (22 : ℤ) = ⌊(10.5 : ℚ) / (0.5 : ℚ)⌋ + 1 ∧
      ⌈(10.5 : ℚ) / (0.5 : ℚ)⌉ ≤ (22 : ℤ) ∧
      (22 : ℤ) ≤ ⌈(10.5 : ℚ) / (0.5 : ℚ)⌉ + 1) ∧
    ((10.5 : ℚ) = 0 → (22 : ℤ) = 0) :=
  calculate_sleep_debt_days_to_payoff (List.replicate 7 21600)
    ⟨10.5, 6, 22, .critical⟩
    (by norm_num [calculate_sleep_debt, TARGET_SLEEP_HOURS, List.replicate, max_def])

/-- Helper: along a streak scan the best-streak component never
decreases. -/
theorem streak_best_le_foldl (l : List (Option Bool)) (s : ℕ × ℕ) :
    s.2 ≤ (l.foldl streakStep s).2 := by
  induction l generalizing s with
  | nil => exact le_refl _
  | cons a l ih =>
      refine le_trans ?_ (ih (streakStep s a))
      rcases a with _ | b
      · exact le_refl _
      · cases b
        · exact le_refl _
        · exact le_max_left _ _

/-- Helper: when the history fits in the 90-day window, the window is
the whole history. -/
theorem window90_of_le {α : Type} (l : List α) (hl : l.length ≤ 90) :
    window90 l = l := by
  simp [window90, Nat.sub_eq_zero_of_le hl]

/-- C2 (counterexample): two consecutive runs of `update_streaks` on a
growing history can decrease the persisted best streak, in two ways.
(i) `hrv_above_avg` recomputes its target each run as the in-window
mean: on HRV history [10, 10] the target is 10, both days hit and
`best_streak = 2` is stored; after one more day of HRV 100 — still well
inside the 90-day window — the target becomes 40, the first two days now
miss and the stored `best_streak` drops to 1.  (ii) even with a fixed
predicate, a 5-day run at the start of a 90-day history gives
`best_streak = 5`, but one day later the oldest day falls out of the
`LIMIT 90` window and the recomputed (and upserted) `best_streak` is
4. -/
theorem update_streaks_best_decreases :
    ((run_streaks_hrv [some 10, some 10] = some (2, 2) ∧
      run_streaks_hrv [some 10, some 10, some 100] = some (1, 1)) ∧
      (1 : ℕ) < 2) ∧
    ((run_streaks (List.replicate 5 (some true) ++ List.replicate 85 (some false))).2 = 5 ∧
      (run_streaks ((List.replicate 5 (some true) ++ List.replicate 85 (some false)) ++
        [some false])).2 = 4 ∧
      (4 : ℕ) < 5) := by
  refine ⟨⟨⟨?_, ?_⟩, by decide⟩, by decide, by decide, by decide⟩
  · have hw : window90 [some (10 : ℚ), some 10] = [some 10, some 10] :=
      window90_of_le _ (by norm_num)
    have hfm : List.filterMap id [some (10 : ℚ), some 10] = [10, 10] := rfl
    have ht : listMean [(10 : ℚ), 10] = 10 := by norm_num [listMean]
    simp only [run_streaks_hrv, hw, hfm, ht]
    norm_num [streakStep]
    exact fun hcon => absurd hcon (by simp)
  · have hw : window90 [some (10 : ℚ), some 10, some 100] =
        [some 10, some 10, some 100] := window90_of_le _ (by norm_num)
    have hfm : List.filterMap id [some (10 : ℚ), some 10, some 100] =
        [10, 10, 100] := rfl
    have ht : listMean [(10 : ℚ), 10, 100] = 40 := by norm_num [listMean]
    simp only [run_streaks_hrv, hw, hfm, ht]
    norm_num [streakStep]
    exact fun hcon => absurd hcon (by simp)

/-- C2 (amended): the best streak persisted by `update_streaks` is
non-decreasing across two consecutive runs over a growing history only
for the fixed-predicate habits (`sleep_7h`, `steps_8k`, `bedtime_2300`,
whose per-day outcome depends only on that day's stored values) and only
while the grown history still fits in the 90-day window; once the
history exceeds 90 days the run holding the record can fall out of the
`LIMIT 90` window, and for `hrv_above_avg` — whose target is recomputed
each run as the in-window mean — the best streak can decrease even
within the window. -/
theorem best_streak_monotone_fixed_within_window {α : Type}
    (hist ext : List (Option α)) (hit : α → Bool)
    (h : (hist ++ ext).length ≤ 90) :
    (run_streaks_fixed hist hit).2 ≤ (run_streaks_fixed (hist ++ ext) hit).2 := by
  have h1 : hist.length ≤ 90 := by
    rw [List.length_append] at h
    omega
  rw [run_streaks_fixed, run_streaks_fixed, window90_of_le _ h1, window90_of_le _ h,
    List.map_append, List.foldl_append]
  exact streak_best_le_foldl _ _

/-- C2 (witness): the `sleep_7h` habit (threshold 7 h) on a one-day
history of 8 h extended by one 6-hour day. -/
theorem best_streak_monotone_fixed_within_window_witness :
    (run_streaks_fixed [some (8 : ℚ)] (fun v => decide (v ≥ 7))).2 ≤
      (run_streaks_fixed ([some (8 : ℚ)] ++ [some 6]) (fun v => decide (v ≥ 7))).2 :=
  best_streak_monotone_fixed_within_window [some 8] [some 6]
    (fun v => decide (v ≥ 7)) (by simp)

/-- C3 (counterexample): a bedtime of exactly 23:00 against the 23:00
target *does* qualify (`hit = True`), although 23:00 is not strictly
before 23:00 — the comparison `minute <= target_min` makes the cutoff
inclusive, so the claim's exclusive-cutoff reading is false. -/
theorem bedtime_exact_cutoff_qualifies :
    bedtime_hit (some ⟨23, 0⟩) 23 0 = true ∧ ¬(23 * 60 + 0 < 23 * 60 + 0) := by
  decide

/-- C3 (amended): for the bedtime habit a day qualifies if and only if
the recorded bedtime's wall-clock hour:minute is at or before the target
cutoff (the cutoff minute is inclusive); in particular a bedtime of
exactly 23:00 against target 23:00 qualifies and extends the streak. -/
theorem bedtime_hit_iff_le (t : WallClock) (th tm : ℕ)
    (hm : t.minute < 60) (htm : tm < 60) :
    bedtime_hit (some t) th tm = true ↔
      t.hour * 60 + t.minute ≤ th * 60 + tm := by
  simp only [bedtime_hit, Bool.or_eq_true, Bool.and_eq_true, decide_eq_true_eq]
  omega

/-- C3 (witness): 22:59 against the 23:00 target. -/
theorem bedtime_hit_iff_le_witness :
    bedtime_hit (some ⟨22, 59⟩) 23 0 = true ↔ 22 * 60 + 59 ≤ 23 * 60 + 0 :=
  bedtime_hit_iff_le ⟨22, 59⟩ 23 0 (by decide) (by decide)

/-- C4 (counterexample): on the bedtime series
[23:00, 23:15, 00:10, 22:50, 23:05] the code does shift the 00:10 sample
to 1450 minutes and computes the sample variance 992.5 min², but the
resulting sample standard deviation `√992.5 ≈ 31.5` is *not* strictly
under 30 minutes. -/
theorem circadian_example_stdev_not_under_30 :
    get_circadian_variance
        [some ⟨23, 0⟩, some ⟨23, 15⟩, some ⟨0, 10⟩, some ⟨22, 50⟩, some ⟨23, 5⟩] =
      some (1985 / 2) ∧
    bedtime_to_minutes ⟨0, 10⟩ = 10 + 1440 ∧
    ¬ Real.sqrt (1985 / 2) < 30 := by
  refine ⟨?_, by decide, ?_⟩
  · norm_num [get_circadian_variance, bedtime_to_minutes, sampleVariance,
      listMean, List.filterMap]
  · rw [Real.sqrt_lt' (by norm_num)]
    norm_num

/-- C4 (amended): on the bedtime series
[23:00, 23:15, 00:10, 22:50, 23:05], `get_circadian_stability` shifts
the 00:10 sample by +1440 minutes before computing variance, and the
sample standard deviation it returns is `√992.5` minutes — at least 30
and strictly under 32 (only the population standard deviation,
denominator n, would be under 30). -/
theorem circadian_example_stdev_bounds :
    get_circadian_variance
        [some ⟨23, 0⟩, some ⟨23, 15⟩, some ⟨0, 10⟩, some ⟨22, 50⟩, some ⟨23, 5⟩] =
      some (1985 / 2) ∧
    bedtime_to_minutes ⟨0, 10⟩ = 10 + 1440 ∧
    30 ≤ Real.sqrt (1985 / 2) ∧ Real.sqrt (1985 / 2) < 32 := by
  refine ⟨?_, by decide, ?_, ?_⟩
  · norm_num [get_circadian_variance, bedtime_to_minutes, sampleVariance,
      listMean, List.filterMap]
  · rw [Real.le_sqrt' (by norm_num)]
    norm_num
  · rw [Real.sqrt_lt' (by norm_num)]
    norm_num

/-- Helper: every alert of the readiness block is on `readiness_score`. -/
theorem metric_of_mem_readinessAlerts {a : Alert} {b c : Option ℚ}
    (h : a ∈ readinessAlerts b c) : a.metric = "readiness_score" := by
  rcases b with _ | bv <;> rcases c with _ | cv <;>
    simp only [readinessAlerts] at h
  all_goals try split_ifs at h
  all_goals simp_all

/-- Helper: every alert of the sleep block is on `sleep_score`. -/
theorem metric_of_mem_sleepAlerts {a : Alert} {b c : Option ℚ}
    (h : a ∈ sleepAlerts b c) : a.metric = "sleep_score" := by
  rcases b with _ | bv <;> rcases c with _ | cv <;>
    simp only [sleepAlerts] at h
  all_goals try split_ifs at h
  all_goals simp_all

/-- Helper: every alert of the HRV block is on `hrv`. -/
theorem metric_of_mem_hrvAlerts {a : Alert} {b c : Option ℚ}
    (h : a ∈ hrvAlerts b c) : a.metric = "hrv" := by
  rcases b with _ | bv <;> rcases c with _ | cv <;>
    simp only [hrvAlerts] at h
  all_goals try split_ifs at h
  all_goals simp_all

/-- Helper: every alert of the resting-HR block is on `resting_hr`. -/
theorem metric_of_mem_rhrAlerts {a : Alert} {b c : Option ℚ}
    (h : a ∈ rhrAlerts b c) : a.metric = "resting_hr" := by
  rcases b with _ | bv <;> rcases c with _ | cv <;>
    simp only [rhrAlerts] at h
  all_goals try split_ifs at h
  all_goals simp_all

/-- Helper: every alert of the temperature block is on `temperature`. -/
theorem metric_of_mem_tempAlerts {a : Alert} {c : Option ℚ}
    (h : a ∈ tempAlerts c) : a.metric = "temperature" := by
  rcases c with _ | cv <;> simp only [tempAlerts] at h
  all_goals try split_ifs at h
  all_goals simp_all

/-- Helper: every alert of the stress block is on `stress_high`. -/
theorem metric_of_mem_stressAlerts {a : Alert} {b c : Option ℚ}
    (h : a ∈ stressAlerts b c) : a.metric = "stress_high" := by
  rcases b with _ | bv <;> rcases c with _ | cv <;>
    simp only [stressAlerts] at h
  all_goals try split_ifs at h
  all_goals simp_all

/-- Helper: every alert of the SpO2 block is on `spo2`. -/
theorem metric_of_mem_spo2Alerts {a : Alert} {c : Option ℚ}
    (h : a ∈ spo2Alerts c) : a.metric = "spo2" := by
  rcases c with _ | cv <;> simp only [spo2Alerts] at h
  all_goals try split_ifs at h
  all_goals simp_all

/-- Helper: membership in `check_alerts` comes from one of the seven
blocks. -/
theorem mem_check_alerts_elim {a : Alert} {b : Baselines} {c : Current}
    (h : a ∈ check_alerts b c) :
    a ∈ readinessAlerts b.readiness_score c.readiness_score ∨
    a ∈ sleepAlerts b.sleep_score c.sleep_score ∨
    a ∈ hrvAlerts b.hrv c.hrv ∨
    a ∈ rhrAlerts b.resting_hr c.resting_hr ∨
    a ∈ tempAlerts c.temperature_deviation ∨
    a ∈ stressAlerts b.stress_high c.stress_high ∨
    a ∈ spo2Alerts c.spo2 := by
  simpa [check_alerts, List.mem_append, or_assoc] using h

/-- Helper: a readiness alert in `check_alerts` comes from the readiness
block. -/
theorem readiness_mem_check_alerts {s : String} {b : Baselines} {c : Current}
    (h : Alert.mk "readiness_score" s ∈ check_alerts b c) :
    Alert.mk "readiness_score" s ∈
      readinessAlerts b.readiness_score c.readiness_score := by
  rcases mem_check_alerts_elim h with h | h | h | h | h | h | h
  · exact h
  · exact absurd (metric_of_mem_sleepAlerts h) (by simp)
  · exact absurd (metric_of_mem_hrvAlerts h) (by simp)
  · exact absurd (metric_of_mem_rhrAlerts h) (by simp)
  · exact absurd (metric_of_mem_tempAlerts h) (by simp)
  · exact absurd (metric_of_mem_stressAlerts h) (by simp)
  · exact absurd (metric_of_mem_spo2Alerts h) (by simp)

/-- C7 (confirmed): whenever `check_alerts` produces a readiness-drop
alert from baseline `bv` and latest value `cv`, the drop is at least 20,
its severity is `red` iff `bv − cv ≥ 30` and `yellow` iff
`20 ≤ bv − cv < 30`. -/
theorem check_alerts_readiness_severity (b : Baselines) (c : Current)
    (bv cv : ℚ) (s : String)
    (hb : b.readiness_score = some bv) (hc : c.readiness_score = some cv)
    (ha : Alert.mk "readiness_score" s ∈ check_alerts b c) :
    20 ≤ bv - cv ∧ (s = "red" ↔ 30 ≤ bv - cv) ∧
      (s = "yellow" ↔ 20 ≤ bv - cv ∧ bv - cv < 30) := by
  have h := readiness_mem_check_alerts ha
  rw [hb, hc] at h
  simp only [readinessAlerts, THRESHOLDS_readiness_score_drop] at h
  split_ifs at h with h1 h2 h3
  · -- red branch
    simp only [List.mem_singleton, Alert.mk.injEq, true_and] at h
    subst h
    exact ⟨h2, iff_of_true rfl h3,
      iff_of_false (by decide) fun hcon => absurd hcon.2 (not_lt.mpr h3)⟩
  · -- yellow branch
    simp only [List.mem_singleton, Alert.mk.injEq, true_and] at h
    subst h
    exact ⟨h2, iff_of_false (by decide) h3,
      iff_of_true rfl ⟨h2, not_le.mp h3⟩⟩
  · exact absurd h (List.not_mem_nil _)
  · exact absurd h (List.not_mem_nil _)

/-- C7 (witness): baseline 80 with latest 45 gives a red readiness
alert; baseline 80 with latest 55 gives a yellow one. -/
theorem check_alerts_readiness_severity_witness :
    (20 ≤ (80 : ℚ) - 45 ∧ (("red" : String) = "red" ↔ 30 ≤ (80 : ℚ) - 45) ∧
      (("red" : String) = "yellow" ↔ 20 ≤ (80 : ℚ) - 45 ∧ (80 : ℚ) - 45 < 30)) ∧
    (20 ≤ (80 : ℚ) - 55 ∧ (("yellow" : String) = "red" ↔ 30 ≤ (80 : ℚ) - 55) ∧
      (("yellow" : String) = "yellow" ↔ 20 ≤ (80 : ℚ) - 55 ∧ (80 : ℚ) - 55 < 30)) :=
  ⟨check_alerts_readiness_severity { readiness_score := some 80 }
      { readiness_score := some 45 } 80 45 "red" rfl rfl
      (by norm_num [check_alerts, readinessAlerts, sleepAlerts, hrvAlerts,
        rhrAlerts, tempAlerts, stressAlerts, spo2Alerts,
        THRESHOLDS_readiness_score_drop]),
   check_alerts_readiness_severity { readiness_score := some 80 }
      { readiness_score := some 55 } 80 55 "yellow" rfl rfl
      (by norm_num [check_alerts, readinessAlerts, sleepAlerts, hrvAlerts,
        rhrAlerts, tempAlerts, stressAlerts, spo2Alerts,
        THRESHOLDS_readiness_score_drop])⟩

/-- C5 (confirmed): a candidate alert whose ledger entry is younger than
the 12-hour window is suppressed by `_filter_duplicates`, and when every
candidate is suppressed `run_alert_check` sends nothing and leaves the
ledger untouched. -/
theorem run_alert_check_dedup (b : Baselines) (c : Current)
    (history : String → Option ℤ) (now : ℤ) (send_success : Bool) :
    (∀ a t0, a ∈ check_alerts b c → history a.metric = some t0 →
      now - t0 < DEDUP_HOURS * 3600 →
      a ∉ filter_duplicates (check_alerts b c) history now) ∧
    ((∀ a ∈ check_alerts b c, ∃ t0, history a.metric = some t0 ∧
        now - t0 < DEDUP_HOURS * 3600) →
      (run_alert_check b c history now send_success).sent = none ∧
      ∀ m, (run_alert_check b c history now send_success).ledger m = history m) := by
  have key : ∀ (a : Alert) (t0 : ℤ), history a.metric = some t0 →
      now - t0 < DEDUP_HOURS * 3600 →
      ¬((match history a.metric with
          | some last_sent => decide (last_sent ≤ now - DEDUP_HOURS * 3600)
          | none => true) = true) := by
    intro a t0 hh hlt
    rw [hh]
    simp only [decide_eq_true_eq]
    intro hc
    linarith
  constructor
  · intro a t0 _ hh hlt hmem
    rw [filter_duplicates, List.mem_filter] at hmem
    exact key a t0 hh hlt hmem.2
  · intro hall
    have hfe : filter_duplicates (check_alerts b c) history now = [] := by
      rw [filter_duplicates]
      refine List.filter_eq_nil_iff.mpr fun a ha => ?_
      obtain ⟨t0, hh, hlt⟩ := hall a ha
      exact key a t0 hh hlt
    constructor
    · simp only [run_alert_check, hfe, List.isEmpty_nil, if_true]
      split <;> rfl
    · intro m
      simp only [run_alert_check, hfe, List.isEmpty_nil, if_true]
      split <;> rfl

/-- C5 (witness): a single fresh readiness alert against a ledger whose
entry is 1 second old — nothing is sent. -/
theorem run_alert_check_dedup_witness :
    (run_alert_check { readiness_score := some 80 } { readiness_score := some 45 }
      (fun _ => some 0) 1 true).sent = none :=
  ((run_alert_check_dedup { readiness_score := some 80 }
      { readiness_score := some 45 } (fun _ => some 0) 1 true).2
    (fun a _ => ⟨0, rfl, by norm_num [DEDUP_HOURS]⟩)).1

/-- C6 (confirmed): when `run_alert_check` hands a message to the
notification sender, a reported failure leaves the dedup ledger
completely unmodified, and a reported success stamps exactly the
delivered metrics with the send time as one batch. -/
theorem run_alert_check_ledger_atomic (b : Baselines) (c : Current)
    (history : String → Option ℤ) (now : ℤ) (send_success : Bool)
    (msg : List Alert)
    (h : (run_alert_check b c history now send_success).sent = some msg) :
    (send_success = false →
      ∀ m, (run_alert_check b c history now send_success).ledger m = history m) ∧
    (send_success = true →
      ∀ m, (run_alert_check b c history now send_success).ledger m =
        if m ∈ msg.map Alert.metric then some now else history m) := by
  by_cases h1 : (check_alerts b c).isEmpty = true
  · simp [run_alert_check, h1] at h
  · by_cases h2 :
      (filter_duplicates (check_alerts b c) history now).isEmpty = true
    · simp [run_alert_check, h1, h2] at h
    · cases send_success
      · refine ⟨fun _ m => ?_, fun hcon => absurd hcon (by simp)⟩
        simp [run_alert_check, h1, h2]
      · have hmsg : filter_duplicates (check_alerts b c) history now = msg := by
          simpa [run_alert_check, h1, h2] using h
        have hne : msg ≠ [] := fun hcon => h2 (by rw [hmsg, hcon]; rfl)
        refine ⟨fun hcon => absurd hcon (by simp), fun _ m => ?_⟩
        simp [run_alert_check, h1, h2, hmsg, hne]

/-- C6 (witness): a delivered single-alert message with `success = true`
stamps the delivered metric with the send time. -/
theorem run_alert_check_ledger_atomic_witness :
    (run_alert_check { readiness_score := some 80 } { readiness_score := some 45 }
        (fun _ => none) 5 true).ledger "readiness_score" =
      if "readiness_score" ∈
          ([⟨"readiness_score", "red"⟩] : List Alert).map Alert.metric then
        some (5 : ℤ)
      else none :=
  ((run_alert_check_ledger_atomic { readiness_score := some 80 }
      { readiness_score := some 45 } (fun _ => none) 5 true
      [⟨"readiness_score", "red"⟩]
      (by norm_num [run_alert_check, filter_duplicates, check_alerts,
        readinessAlerts, sleepAlerts, hrvAlerts, rhrAlerts, tempAlerts,
        stressAlerts, spo2Alerts, THRESHOLDS_readiness_score_drop])).2
    rfl) "readiness_score"

/-- Helper: the readiness block is empty when either side of the
truthiness guard is zero. -/
theorem readinessAlerts_zero {b c : Option ℚ} (h : b = some 0 ∨ c = some 0) :
    readinessAlerts b c = [] := by
  rcases h with rfl | rfl
  · rcases c with _ | cv <;> simp [readinessAlerts]
  · rcases b with _ | bv <;> simp [readinessAlerts]

/-- Helper: the sleep block is empty when either guard side is zero. -/
theorem sleepAlerts_zero {b c : Option ℚ} (h : b = some 0 ∨ c = some 0) :
    sleepAlerts b c = [] := by
  rcases h with rfl | rfl
  · rcases c with _ | cv <;> simp [sleepAlerts]
  · rcases b with _ | bv <;> simp [sleepAlerts]

/-- Helper: the HRV block is empty when either guard side is zero. -/
theorem hrvAlerts_zero {b c : Option ℚ} (h : b = some 0 ∨ c = some 0) :
    hrvAlerts b c = [] := by
  rcases h with rfl | rfl
  · rcases c with _ | cv <;> simp [hrvAlerts]
  · rcases b with _ | bv <;> simp [hrvAlerts]

/-- Helper: the resting-HR block is empty when either guard side is
zero. -/
theorem rhrAlerts_zero {b c : Option ℚ} (h : b = some 0 ∨ c = some 0) :
    rhrAlerts b c = [] := by
  rcases h with rfl | rfl
  · rcases c with _ | cv <;> simp [rhrAlerts]
  · rcases b with _ | bv <;> simp [rhrAlerts]

/-- Helper: the stress block is empty when either guard side is zero. -/
theorem stressAlerts_zero {b c : Option ℚ} (h : b = some 0 ∨ c = some 0) :
    stressAlerts b c = [] := by
  rcases h with rfl | rfl
  · rcases c with _ | cv <;> simp [stressAlerts]
  · rcases b with _ | bv <;> simp [stressAlerts]

/-- Helper: a temperature deviation of exactly 0 triggers nothing
(`|0| > 1.0` is false). -/
theorem tempAlerts_zero : tempAlerts (some 0) = [] := by
  norm_num [tempAlerts, THRESHOLDS_temperature_deviation]

/-- Helper: an SpO2 value of 0 triggers a red alert (`0 < 95`, `0 < 92`;
the guard is only `is not None`). -/
theorem spo2Alerts_zero_mem : Alert.mk "spo2" "red" ∈ spo2Alerts (some 0) := by
  norm_num [spo2Alerts, THRESHOLDS_spo2_min]

/-- C10 (counterexample): a current temperature deviation of 0 passes
the `is not None` guard but fails the `|value| > 1.0` trigger, so —
contrary to the claim that temperature alerts on a value of 0 —
`check_alerts` emits no alert at all on it. -/
theorem check_alerts_temp_zero_no_alert :
    check_alerts {} { temperature_deviation := some 0 } = [] := by
  norm_num [check_alerts, readinessAlerts, sleepAlerts, hrvAlerts, rhrAlerts,
    tempAlerts, stressAlerts, spo2Alerts, THRESHOLDS_temperature_deviation]

/-- C10 (amended): for readiness score, sleep score, HRV, resting heart
rate and stress-high, no alert is produced when the baseline or latest
value is 0 (the truthiness guard treats 0 like an absent value); SpO2 is
guarded only against absence and does alert (red) on a value of 0, while
temperature deviation — also guarded only against absence — produces no
alert at 0 because `|0| > 1.0` fails. -/
theorem check_alerts_zero_guards (b : Baselines) (c : Current) :
    ((b.readiness_score = some 0 ∨ c.readiness_score = some 0) →
      ∀ s, Alert.mk "readiness_score" s ∉ check_alerts b c) ∧
    ((b.sleep_score = some 0 ∨ c.sleep_score = some 0) →
      ∀ s, Alert.mk "sleep_score" s ∉ check_alerts b c) ∧
    ((b.hrv = some 0 ∨ c.hrv = some 0) →
      ∀ s, Alert.mk "hrv" s ∉ check_alerts b c) ∧
    ((b.resting_hr = some 0 ∨ c.resting_hr = some 0) →
      ∀ s, Alert.mk "resting_hr" s ∉ check_alerts b c) ∧
    ((b.stress_high = some 0 ∨ c.stress_high = some 0) →
      ∀ s, Alert.mk "stress_high" s ∉ check_alerts b c) ∧
    (c.spo2 = some 0 → Alert.mk "spo2" "red" ∈ check_alerts b c) ∧
    (c.temperature_deviation = some 0 →
      ∀ s, Alert.mk "temperature" s ∉ check_alerts b c) := by
  refine ⟨fun h s hmem => ?_, fun h s hmem => ?_, fun h s hmem => ?_,
    fun h s hmem => ?_, fun h s hmem => ?_, fun h => ?_, fun h s hmem => ?_⟩
  · rcases mem_check_alerts_elim hmem with hm | hm | hm | hm | hm | hm | hm
    · rw [readinessAlerts_zero h] at hm
      exact List.not_mem_nil _ hm
    · exact absurd (metric_of_mem_sleepAlerts hm) (by simp)
    · exact absurd (metric_of_mem_hrvAlerts hm) (by simp)
    · exact absurd (metric_of_mem_rhrAlerts hm) (by simp)
    · exact absurd (metric_of_mem_tempAlerts hm) (by simp)
    · exact absurd (metric_of_mem_stressAlerts hm) (by simp)
    · exact absurd (metric_of_mem_spo2Alerts hm) (by simp)
  · rcases mem_check_alerts_elim hmem with hm | hm | hm | hm | hm | hm | hm
    · exact absurd (metric_of_mem_readinessAlerts hm) (by simp)
    · rw [sleepAlerts_zero h] at hm
      exact List.not_mem_nil _ hm
    · exact absurd (metric_of_mem_hrvAlerts hm) (by simp)
    · exact absurd (metric_of_mem_rhrAlerts hm) (by simp)
    · exact absurd (metric_of_mem_tempAlerts hm) (by simp)
    · exact absurd (metric_of_mem_stressAlerts hm) (by simp)
    · exact absurd (metric_of_mem_spo2Alerts hm) (by simp)
  · rcases mem_check_alerts_elim hmem with hm | hm | hm | hm | hm | hm | hm
    · exact absurd (metric_of_mem_readinessAlerts hm) (by simp)
    · exact absurd (metric_of_mem_sleepAlerts hm) (by simp)
    · rw [hrvAlerts_zero h] at hm
      exact List.not_mem_nil _ hm
    · exact absurd (metric_of_mem_rhrAlerts hm) (by simp)
    · exact absurd (metric_of_mem_tempAlerts hm) (by simp)
    · exact absurd (metric_of_mem_stressAlerts hm) (by simp)
    · exact absurd (metric_of_mem_spo2Alerts hm) (by simp)
  · rcases mem_check_alerts_elim hmem with hm | hm | hm | hm | hm | hm | hm
    · exact absurd (metric_of_mem_readinessAlerts hm) (by simp)
    · exact absurd (metric_of_mem_sleepAlerts hm) (by simp)
    · exact absurd (metric_of_mem_hrvAlerts hm) (by simp)
    · rw [rhrAlerts_zero h] at hm
      exact List.not_mem_nil _ hm
    · exact absurd (metric_of_mem_tempAlerts hm) (by simp)
    · exact absurd (metric_of_mem_stressAlerts hm) (by simp)
    · exact absurd (metric_of_mem_spo2Alerts hm) (by simp)
  · rcases mem_check_alerts_elim hmem with hm | hm | hm | hm | hm | hm | hm
    · exact absurd (metric_of_mem_readinessAlerts hm) (by simp)
    · exact absurd (metric_of_mem_sleepAlerts hm) (by simp)
    · exact absurd (metric_of_mem_hrvAlerts hm) (by simp)
    · exact absurd (metric_of_mem_rhrAlerts hm) (by simp)
    · exact absurd (metric_of_mem_tempAlerts hm) (by simp)
    · rw [stressAlerts_zero h] at hm
      exact List.not_mem_nil _ hm
    · exact absurd (metric_of_mem_spo2Alerts hm) (by simp)
  · simp only [check_alerts, List.mem_append]
    exact Or.inr (by rw [h]; exact spo2Alerts_zero_mem)
  · rcases mem_check_alerts_elim hmem with hm | hm | hm | hm | hm | hm | hm
    · exact absurd (metric_of_mem_readinessAlerts hm) (by simp)
    · exact absurd (metric_of_mem_sleepAlerts hm) (by simp)
    · exact absurd (metric_of_mem_hrvAlerts hm) (by simp)
    · exact absurd (metric_of_mem_rhrAlerts hm) (by simp)
    · rw [h, tempAlerts_zero] at hm
      exact List.not_mem_nil _ hm
    · exact absurd (metric_of_mem_stressAlerts hm) (by simp)
    · exact absurd (metric_of_mem_spo2Alerts hm) (by simp)

/-- C10 (witness): an SpO2 reading of 0 does produce the red SpO2
alert. -/
theorem check_alerts_zero_guards_witness :
    Alert.mk "spo2" "red" ∈ check_alerts {} { spo2 := some 0 } :=
  (check_alerts_zero_guards {} { spo2 := some 0 }).2.2.2.2.2.1 rfl

/-- C8 (confirmed): an `'all'`-bucket correlation record is only
materialized when the event type occurs on at least 3 distinct days and
both partitions hold at least 3 samples; a time-of-day-bucket record is
only materialized when the with-event partition holds at least 2 samples
and the without-event partition at least 3. -/
theorem correlation_record_floors (rows : List (String × Option ℚ))
    (event_days bucket_event_days : List String) (bucket_name : String)
    (r r' : CorrelationRecord)
    (hall : compute_correlation_all rows event_days = some r)
    (hbucket : compute_correlation_bucket rows bucket_event_days bucket_name = some r') :
    (3 ≤ event_days.dedup.length ∧ 3 ≤ r.count_with ∧ 3 ≤ r.count_without ∧
      r.time_bucket = "all") ∧
    (2 ≤ r'.count_with ∧ 3 ≤ r'.count_without) := by
  constructor
  · simp only [compute_correlation_all] at hall
    split at hall
    · exact absurd hall (by simp)
    · split at hall
      · exact absurd hall (by simp)
      · split at hall
        · exact absurd hall (by simp)
        · rename_i h14 hed hcw
          simp only [Option.some.injEq] at hall
          subst hall
          refine ⟨by omega, ?_, ?_, rfl⟩ <;> simp only [] <;> omega
  · simp only [compute_correlation_bucket] at hbucket
    split at hbucket
    · exact absurd hbucket (by simp)
    · split at hbucket
      · exact absurd hbucket (by simp)
      · split at hbucket
        · exact absurd hbucket (by simp)
        · rename_i h14 hed hcw
          simp only [Option.some.injEq] at hbucket
          subst hbucket
          refine ⟨?_, ?_⟩ <;> simp only [] <;> omega

/-- C8 (witness): 14 days of metric value 1, the event on days 01–03
(all bucket) and 01–02 (morning bucket). -/
theorem correlation_record_floors_witness :
    (3 ≤ (["01", "02", "03"] : List String).dedup.length ∧ (3 : ℕ) ≤ 3 ∧
      (3 : ℕ) ≤ 11 ∧ ("all" : String) = "all") ∧
    ((2 : ℕ) ≤ 2 ∧ (3 : ℕ) ≤ 12) := by
  have hd1 : (["01", "02", "03"] : List String).dedup = ["01", "02", "03"] :=
    List.dedup_eq_self.mpr (by decide)
  have hd2 : (["01", "02"] : List String).dedup = ["01", "02"] :=
    List.dedup_eq_self.mpr (by decide)
  exact correlation_record_floors
    [("01", some 1), ("02", some 1), ("03", some 1), ("04", some 1),
     ("05", some 1), ("06", some 1), ("07", some 1), ("08", some 1),
     ("09", some 1), ("10", some 1), ("11", some 1), ("12", some 1),
     ("13", some 1), ("14", some 1)]
    ["01", "02", "03"] ["01", "02"] "morning"
    ⟨1, 1, 0, 0, 3, 11, 3 / 14, "all"⟩ ⟨1, 1, 0, 0, 2, 12, 2 / 14, "morning"⟩
    (by norm_num +decide [compute_correlation_all, partitionByEvent, listMean, hd1])
    (by norm_num +decide [compute_correlation_bucket, partitionByEvent, listMean, hd2])

/-- Helper: on a sorted list, `getD` with default 0 is monotone in the
index while in bounds. -/
theorem getD_mono_of_sorted {l : List ℚ} (hs : l.Sorted (· ≤ ·))
    {i j : ℕ} (hij : i ≤ j) (hj : j < l.length) :
    l.getD i 0 ≤ l.getD j 0 := by
  have hi : i < l.length := lt_of_le_of_lt hij hj
  rw [List.getD_eq_getElem l 0 hi, List.getD_eq_getElem l 0 hj]
  have h := hs.rel_get_of_le (a := ⟨i, hi⟩) (b := ⟨j, hj⟩) (Fin.mk_le_mk.mpr hij)
  simpa using h

/-- Helper: the interpolated percentile is monotone in `p` on a sorted
nonempty list, for `0 ≤ p ≤ q ≤ 100`. -/
theorem percentile_mono (l : List ℚ) (hs : l.Sorted (· ≤ ·)) (hn : 1 ≤ l.length)
    {p q : ℚ} (hp : 0 ≤ p) (hpq : p ≤ q) (hq : q ≤ 100) :
    percentile l p ≤ percentile l q := by
  simp only [percentile]
  have hn1 : (1 : ℚ) ≤ (l.length : ℚ) := by exact_mod_cast hn
  set n := l.length
  set k := ((n : ℚ) - 1) * p / 100 with hkdef
  set k' := ((n : ℚ) - 1) * q / 100 with hkqdef
  have hk0 : 0 ≤ k := div_nonneg (mul_nonneg (by linarith) hp) (by norm_num)
  have hkk' : k ≤ k' := by
    have h1 : ((n : ℚ) - 1) * p ≤ ((n : ℚ) - 1) * q :=
      mul_le_mul_of_nonneg_left hpq (by linarith)
    rw [hkdef, hkqdef]
    linarith
  have hk'le : k' ≤ (n : ℚ) - 1 := by
    have h1 : ((n : ℚ) - 1) * q ≤ ((n : ℚ) - 1) * 100 :=
      mul_le_mul_of_nonneg_left hq (by linarith)
    rw [hkqdef]
    linarith
  have hf0 : (0 : ℤ) ≤ ⌊k⌋ := Int.floor_nonneg.mpr hk0
  have hf0' : (0 : ℤ) ≤ ⌊k'⌋ := Int.floor_nonneg.mpr (hk0.trans hkk')
  set f := (⌊k⌋).toNat with hfdef
  set f' := (⌊k'⌋).toNat with hfqdef
  have hfq : (f : ℚ) ≤ k := by
    have h2 : ((f : ℤ) : ℚ) ≤ k := by
      rw [hfdef, Int.toNat_of_nonneg hf0]
      exact Int.floor_le k
    exact_mod_cast h2
  have hfq' : (f' : ℚ) ≤ k' := by
    have h2 : ((f' : ℤ) : ℚ) ≤ k' := by
      rw [hfqdef, Int.toNat_of_nonneg hf0']
      exact Int.floor_le k'
    exact_mod_cast h2
  have hkf : k < (f : ℚ) + 1 := by
    have h2 : k < ((f : ℤ) : ℚ) + 1 := by
      rw [hfdef, Int.toNat_of_nonneg hf0]
      exact Int.lt_floor_add_one k
    exact_mod_cast h2
  have hkf' : k' < (f' : ℚ) + 1 := by
    have h2 : k' < ((f' : ℤ) : ℚ) + 1 := by
      rw [hfqdef, Int.toNat_of_nonneg hf0']
      exact Int.lt_floor_add_one k'
    exact_mod_cast h2
  have hff' : f ≤ f' := by
    rw [hfdef, hfqdef]
    exact Int.toNat_le_toNat (Int.floor_mono hkk')
  have hf'n : f' < n := by
    by_contra hcon
    push_neg at hcon
    have hcq : (n : ℚ) ≤ (f' : ℚ) := by exact_mod_cast hcon
    linarith [hfq'.trans hk'le]
  by_cases h1 : n ≤ f + 1
  · have h2 : n ≤ f' + 1 := by omega
    rw [if_pos h1, if_pos h2]
  · push_neg at h1
    rw [if_neg (by omega)]
    have hAB : l.getD f 0 ≤ l.getD (f + 1) 0 :=
      getD_mono_of_sorted hs (Nat.le_succ f) (by omega)
    have hkf1 : k - (f : ℚ) ≤ 1 := by linarith
    by_cases h2 : n ≤ f' + 1
    · rw [if_pos h2]
      have hBlast : l.getD (f + 1) 0 ≤ l.getD (n - 1) 0 :=
        getD_mono_of_sorted hs (by omega) (by omega)
      have key : (k - (f : ℚ)) * (l.getD (f + 1) 0 - l.getD f 0) ≤
          1 * (l.getD (f + 1) 0 - l.getD f 0) :=
        mul_le_mul_of_nonneg_right hkf1 (sub_nonneg.mpr hAB)
      linarith
    · push_neg at h2
      rw [if_neg (by omega)]
      by_cases h3 : f = f'
      · rw [← h3]
        have key : (k - (f : ℚ)) * (l.getD (f + 1) 0 - l.getD f 0) ≤
            (k' - (f : ℚ)) * (l.getD (f + 1) 0 - l.getD f 0) :=
          mul_le_mul_of_nonneg_right (by linarith) (sub_nonneg.mpr hAB)
        linarith
      · have h4 : f < f' := lt_of_le_of_ne hff' h3
        have hmid : l.getD (f + 1) 0 ≤ l.getD f' 0 :=
          getD_mono_of_sorted hs (by omega) (by omega)
        have hA'B' : l.getD f' 0 ≤ l.getD (f' + 1) 0 :=
          getD_mono_of_sorted hs (Nat.le_succ f') (by omega)
        have key1 : (k - (f : ℚ)) * (l.getD (f + 1) 0 - l.getD f 0) ≤
            1 * (l.getD (f + 1) 0 - l.getD f 0) :=
          mul_le_mul_of_nonneg_right hkf1 (sub_nonneg.mpr hAB)
        have key2 : 0 ≤ (k' - (f' : ℚ)) * (l.getD (f' + 1) 0 - l.getD f' 0) :=
          mul_nonneg (by linarith) (sub_nonneg.mpr hA'B')
        linarith

/-- Helper: on a constant list every percentile equals the constant. -/
theorem percentile_replicate (n : ℕ) (hn : 0 < n) (x p : ℚ) :
    percentile (List.replicate n x) p = x := by
  have hg : ∀ i, i < n → (List.replicate n x).getD i 0 = x := by
    intro i hi
    rw [List.getD_eq_getElem _ _ (by simpa using hi)]
    simp
  simp only [percentile, List.length_replicate]
  split
  · exact hg _ (by omega)
  · rename_i h
    rw [hg _ (by omega), hg _ (by omega)]
    ring

/-- Helper: sorting a constant list returns it unchanged. -/
theorem insertionSort_replicate (n : ℕ) (x : ℚ) :
    List.insertionSort (· ≤ ·) (List.replicate n x) = List.replicate n x := by
  have hperm := List.perm_insertionSort (α := ℚ) (· ≤ ·) (List.replicate n x)
  have h1 : ∀ b ∈ List.insertionSort (· ≤ ·) (List.replicate n x), b = x :=
    fun b hb => List.eq_of_mem_replicate (hperm.mem_iff.mp hb)
  have h2 := List.eq_replicate_length.mpr h1
  rwa [hperm.length_eq, List.length_replicate] at h2

/-- C9 (confirmed): whenever `compute_percentiles` materializes a
percentile record the five percentiles are non-decreasing, and on a
history of exactly 7 identical values every percentile equals that
value. -/
theorem compute_percentiles_monotone (values : List ℚ) (r : PercentileRecord)
    (h : compute_percentiles_metric values = some r) :
    (r.p10 ≤ r.p25 ∧ r.p25 ≤ r.p50 ∧ r.p50 ≤ r.p75 ∧ r.p75 ≤ r.p90) ∧
    ∀ x : ℚ, compute_percentiles_metric (List.replicate 7 x) =
      some ⟨x, x, x, x, x, 7⟩ := by
  constructor
  · simp only [compute_percentiles_metric] at h
    split at h
    · exact absurd h (by simp)
    · rename_i hlen
      push_neg at hlen
      simp only [Option.some.injEq] at h
      subst h
      have hs : (List.insertionSort (· ≤ ·) values).Sorted (· ≤ ·) :=
        List.sorted_insertionSort _ values
      have hn : 1 ≤ (List.insertionSort (· ≤ ·) values).length := by
        rw [(List.perm_insertionSort _ values).length_eq]
        omega
      exact ⟨percentile_mono _ hs hn (by norm_num) (by norm_num) (by norm_num),
        percentile_mono _ hs hn (by norm_num) (by norm_num) (by norm_num),
        percentile_mono _ hs hn (by norm_num) (by norm_num) (by norm_num),
        percentile_mono _ hs hn (by norm_num) (by norm_num) (by norm_num)⟩
  · intro x
    simp only [compute_percentiles_metric]
    rw [if_neg (by simp), insertionSort_replicate]
    simp only [percentile_replicate 7 (by norm_num) x, List.length_replicate]

/-- C9 (witness): the 7-value history [3,1,4,1,5,9,2] has percentiles
(1, 1.5, 3, 4.5, 6.6), a non-decreasing chain. -/
theorem compute_percentiles_monotone_witness :
    (1 : ℚ) ≤ 3 / 2 ∧ (3 / 2 : ℚ) ≤ 3 ∧ (3 : ℚ) ≤ 9 / 2 ∧ (9 / 2 : ℚ) ≤ 33 / 5 :=
  (compute_percentiles_monotone [3, 1, 4, 1, 5, 9, 2] ⟨1, 3 / 2, 3, 9 / 2, 33 / 5, 7⟩
    (by
      norm_num [compute_percentiles_metric, percentile, List.insertionSort,
        List.orderedInsert]
      simp only [Int.reduceToNat]
      norm_num)).1

end OuraBot
